import Mathlib

/-!
Formal model of the EV charging-stop placement core of the
ev-ai-navigation-system backend.

The definitions below are shallow embeddings of the Python source:

* `RoutePlanningService` (src/backend/src/services/route_planning_service.py):
  `calculate_charging_stops`, `_find_optimal_stops`, `_create_route_response`.
* `ChargingService` (src/backend/src/services/charging_service.py):
  `_filter_compatible_stations`, `_calculate_station_score`.
* `RouteOptimizerAgent` (src/backend/src/agents/route_optimizer.py):
  `_calculate_charging_time`.

Python floats are modelled as rationals.  The method
`RoutePlanningService.haversine_distance` is floating-point trigonometry
(sin/cos/asin/sqrt); it is modelled as an explicit distance-function
parameter `d : Dist` threaded through the planner, standing for
`self.haversine_distance`.  All theorems quantify over `d`; concrete
scenarios instantiate `d` with an equatorial approximation of the
haversine formula (about 111 km per degree of longitude along the
equator, every scenario point lying on the equator).

External collaborators are modelled at their boundary, exactly as the
planner consumes them: the station catalog
(`charging_station_service.get_all_stations()`) is the list argument
`stations`; the TomTom routing enrichment is an optional external call
whose absence the code handles by documented fallbacks, and the response
fields that depend only on that enrichment are modelled in the fallback
(no-TomTom) mode.
-/

namespace EvNav

/-- Distance function type standing for
`RoutePlanningService.haversine_distance(lat1, lon1, lat2, lon2)`. -/
abbrev Dist : Type := ℚ → ℚ → ℚ → ℚ → ℚ

/-- A station record as consumed by `_find_optimal_stops`: the dict produced
by `charging_station_service.get_all_stations()`.  Keys read with direct
indexing (`station['name']`, `station['city']`, `station['latitude']`,
`station['longitude']`) are plain fields; keys read with `.get(key, default)`
(`power_kw`, `connector_type`, `price_per_kwh`) are `Option` fields with the
default applied at the use site, mirroring the Python. -/
structure Station where
  name : String
  city : String
  latitude : ℚ
  longitude : ℚ
  power_kw : Option ℚ
  connector_type : Option String
  price_per_kwh : Option ℚ
deriving DecidableEq

/-- The candidate dict built at route_planning_service.py lines 283-289:
the station's keys (`**station`) plus `distance_from_current`,
`distance_to_destination`, `detour` and `progress_score`. -/
structure Candidate where
  base : Station
  distance_from_current : ℚ
  distance_to_destination : ℚ
  detour : ℚ
  progress_score : ℚ
deriving DecidableEq

/-- The `stop_info` dict built at route_planning_service.py lines 308-325. -/
structure StopInfo where
  segment : ℕ
  station_name : String
  city : String
  latitude : ℚ
  longitude : ℚ
  distance_from_start : ℚ
  distance_traveled : ℚ
  distance_to_destination : ℚ
  battery_on_arrival : ℚ
  battery_after_charge : ℚ
  kwh_charged : ℚ
  charging_power_kw : ℚ
  charging_time_minutes : ℚ
  connector_type : String
  price_per_kwh : ℚ
  estimated_cost : ℚ
deriving DecidableEq

/-- Python's builtin `max(xs, key=f)` on a list: the first element attaining
the maximal key (later elements replace the current best only when strictly
greater).  Returns `none` on the empty list (Python raises there; the caller
at line 296 only reaches `max` with a non-empty list). -/
def python_max_by {α : Type} (f : α → ℚ) : List α → Option α
  | [] => none
  | x :: xs => some (xs.foldl (fun best y => if f best < f y then y else best) x)

/-- The per-station computation of the candidate loop body
(route_planning_service.py lines 244-289): distance from the current
position, distance from the station to the destination, the direct
current-to-destination distance, the detour, and the progress score
`dist_from_current * 10 - detour * 50`.  The Python interleaves these
computations with the filter tests; the values are pure, so computing them
up front is equivalent. -/
def station_candidate (d : Dist) (curLat curLon endLat endLon : ℚ) (st : Station) :
    Candidate :=
  let dist_from_current := d curLat curLon st.latitude st.longitude
  let dist_to_destination := d st.latitude st.longitude endLat endLon
  let direct_distance := d curLat curLon endLat endLon
  let detour := (dist_from_current + dist_to_destination) - direct_distance
  { base := st
    distance_from_current := dist_from_current
    distance_to_destination := dist_to_destination
    detour := detour
    progress_score := dist_from_current * 10 - detour * 50 }

/-- The candidate filter of `_find_optimal_stops` (lines 242-289): skip a
station when its distance from the current position is below 100 km, when it
exceeds 80 percent of the remaining usable range, or when the detour exceeds
30 km; keep the annotated candidate otherwise.  (The block at lines 272-277
computing `range_after_charge` ends in `pass` and has no effect.) -/
def candidate_stations (d : Dist) (curLat curLon endLat endLon remainingRange : ℚ)
    (stations : List Station) : List Candidate :=
  stations.filterMap fun st =>
    let c := station_candidate d curLat curLon endLat endLon st
    if c.distance_from_current < 100 then none
    else if remainingRange * 0.80 < c.distance_from_current then none
    else if 30 < c.detour then none
    else some c

/-- The `stop_info` dict literal of lines 298-325, given the selected best
candidate, the loop's current battery `b`, the current `segment_number`
`seg`, and the stops accumulated so far (whose `distance_traveled` values are
summed for `distance_from_start`). -/
def stop_info (batteryCapacityKwh vehicleRangeKm minChargePercent
    preferredChargePercent b : ℚ) (seg : ℕ) (stops : List StopInfo)
    (best : Candidate) : StopInfo :=
  let kwh_needed := batteryCapacityKwh * (preferredChargePercent - b) / 100
  let charging_power := best.base.power_kw.getD 50
  let charging_time_minutes := kwh_needed / charging_power * 60
  let km_to_station := best.distance_from_current
  let battery_used := km_to_station / vehicleRangeKm * 100
  let battery_on_arrival := b - battery_used
  { segment := seg
    station_name := best.base.name
    city := best.base.city
    latitude := best.base.latitude
    longitude := best.base.longitude
    distance_from_start := (stops.map StopInfo.distance_traveled).sum + km_to_station
    distance_traveled := km_to_station
    distance_to_destination := best.distance_to_destination
    battery_on_arrival := max battery_on_arrival minChargePercent
    battery_after_charge := preferredChargePercent
    kwh_charged := kwh_needed
    charging_power_kw := charging_power
    charging_time_minutes := charging_time_minutes
    connector_type := best.base.connector_type.getD ("CCS")
    price_per_kwh := best.base.price_per_kwh.getD 0.35
    estimated_cost := kwh_needed * best.base.price_per_kwh.getD 0.35 }

/-- Outcome of one iteration of the `while True` loop of
`_find_optimal_stops`: either the loop breaks with the final stop list, or
it continues with the updated position, battery and stop list. -/
inductive LoopOutcome where
  | halt (stops : List StopInfo)
  | next (newLat newLon newBattery : ℚ) (stops : List StopInfo)
deriving DecidableEq

/-- One iteration of the `while True` body of `_find_optimal_stops`
(lines 224-337), with `seg` the already-incremented `segment_number`:
break when the destination is within the remaining range; break when
`segment_number > 10`; build the candidate list; break when it is empty;
otherwise select the maximum-`progress_score` candidate, append its
`stop_info`, move to the station, set the battery to the preferred level,
and break when the stop list has reached 10 entries. -/
def find_stops_step (d : Dist) (endLat endLon : ℚ) (stations : List Station)
    (vehicleRangeKm batteryCapacityKwh minChargePercent preferredChargePercent : ℚ)
    (curLat curLon b : ℚ) (seg : ℕ) (stops : List StopInfo) : LoopOutcome :=
  let distance_to_end := d curLat curLon endLat endLon
  let remaining_range := vehicleRangeKm * (b - minChargePercent) / 100
  if distance_to_end ≤ remaining_range then .halt stops
  else if 10 < seg then .halt stops
  else
    match python_max_by Candidate.progress_score
        (candidate_stations d curLat curLon endLat endLon remaining_range stations) with
    | none => .halt stops
    | some best =>
      let stop := stop_info batteryCapacityKwh vehicleRangeKm minChargePercent
        preferredChargePercent b seg stops best
      let stops2 := stops ++ [stop]
      if 10 ≤ stops2.length then .halt stops2
      else .next best.base.latitude best.base.longitude preferredChargePercent stops2

/-- The `while True` loop of `_find_optimal_stops`, driven by explicit fuel.
The fuel is an upper bound on the number of remaining iterations; the code's
own `segment_number > 10` guard means the loop body runs at most 11 times, so
`find_optimal_stops` below supplies fuel 11, and the stabilization theorem
for claim C2 shows any fuel of at least 11 yields the same result (the loop
always exits within the ceiling). -/
def find_stops_loop (d : Dist) (endLat endLon : ℚ) (stations : List Station)
    (vehicleRangeKm batteryCapacityKwh minChargePercent preferredChargePercent : ℚ) :
    ℕ → ℚ → ℚ → ℚ → ℕ → List StopInfo → List StopInfo
  | 0, _, _, _, _, stops => stops
  | fuel + 1, curLat, curLon, b, segDone, stops =>
    match find_stops_step d endLat endLon stations vehicleRangeKm batteryCapacityKwh
        minChargePercent preferredChargePercent curLat curLon b (segDone + 1) stops with
    | .halt s => s
    | .next la lo b2 s =>
      find_stops_loop d endLat endLon stations vehicleRangeKm batteryCapacityKwh
        minChargePercent preferredChargePercent fuel la lo b2 (segDone + 1) s

/-- Model of `RoutePlanningService._find_optimal_stops` (lines 204-339):
start at the start coordinates with the given battery, `segment_number = 0`,
empty stop list, and iterate the loop body. -/
def find_optimal_stops (d : Dist) (startLat startLon endLat endLon : ℚ)
    (stations : List Station)
    (vehicleRangeKm batteryCapacityKwh currentBatteryPercent minChargePercent
      preferredChargePercent : ℚ) : List StopInfo :=
  find_stops_loop d endLat endLon stations vehicleRangeKm batteryCapacityKwh
    minChargePercent preferredChargePercent 11 startLat startLon
    currentBatteryPercent 0 []

/-- The response assembled by `_create_route_response` (lines 341-412),
restricted to the fields that do not depend on the external TomTom
enrichment; those that do (driving time, route coordinates, actual distance)
are modelled in the documented fallback mode (`tomtom_data` absent:
constant 80 km/h estimate).  Presentation-layer `round(x, 1)` calls are
omitted (values are kept exact).  The `success` field is the literal
`'success': True` of line 385. -/
structure RouteResponse where
  success : Bool
  message : String
  total_distance_km : ℚ
  driving_time_minutes : ℚ
  total_time_minutes : ℚ
  num_charging_stops : ℕ
  charging_time_minutes : ℚ
  estimated_cost_tl : ℚ
  energy_needed_kwh : ℚ
  vehicle_range_km : ℚ
  charging_stops : List StopInfo
deriving DecidableEq

/-- Model of `_create_route_response` in fallback (no TomTom) mode. -/
def create_route_response (totalDistance vehicleRangeKm : ℚ)
    (chargingStops : List StopInfo) (message : Option String) : RouteResponse :=
  let driving_time_minutes := totalDistance / 80 * 60
  let total_charging_minutes := (chargingStops.map StopInfo.charging_time_minutes).sum
  let total_charging_cost := (chargingStops.map StopInfo.estimated_cost).sum
  { success := true
    message := message.getD ("Route calculated successfully with real-time traffic")
    total_distance_km := totalDistance
    driving_time_minutes := driving_time_minutes
    total_time_minutes := driving_time_minutes + total_charging_minutes
    num_charging_stops := chargingStops.length
    charging_time_minutes := total_charging_minutes
    estimated_cost_tl := total_charging_cost * 30
    energy_needed_kwh := (chargingStops.map StopInfo.kwh_charged).sum
    vehicle_range_km := vehicleRangeKm
    charging_stops := chargingStops }

/-- Model of `RoutePlanningService.calculate_charging_stops` (lines 124-202):
compute the total (great-circle) distance and the usable range; if the
catalog is empty, respond with no stops and the message
"No charging stations available"; if the trip is within the usable range,
respond with no stops; otherwise run `_find_optimal_stops` and respond with
its stops and no explicit message. -/
def calculate_charging_stops (d : Dist) (startLat startLon endLat endLon : ℚ)
    (vehicleRangeKm batteryCapacityKwh currentBatteryPercent minChargePercent
      preferredChargePercent : ℚ) (allStations : List Station) : RouteResponse :=
  let total_distance := d startLat startLon endLat endLon
  let usable_range := vehicleRangeKm * (currentBatteryPercent - minChargePercent) / 100
  if allStations.isEmpty then
    create_route_response total_distance vehicleRangeKm []
      (some ("No charging stations available"))
  else if total_distance ≤ usable_range then
    create_route_response total_distance vehicleRangeKm []
      (some ("No charging stops needed - route calculated with real-time traffic"))
  else
    create_route_response total_distance vehicleRangeKm
      (find_optimal_stops d startLat startLon endLat endLon allStations
        vehicleRangeKm batteryCapacityKwh currentBatteryPercent minChargePercent
        preferredChargePercent) none

/-- A station record as consumed by `ChargingService` (charging_service.py):
every key is read with `.get(key, default)` except those not used by the
modelled methods, so all fields are `Option` with the default applied at the
use site. -/
structure CSStation where
  network : Option String
  connector_types : Option (List String)
  rating : Option ℚ
  power_kw : Option ℚ
  stalls : Option ℚ
  available_stalls : Option ℚ
  wait_time_minutes : Option ℚ
  distance_km : Option ℚ
  amenities : Option (List String)
deriving DecidableEq

/-- The loosely typed `vehicle_specs` dict passed around the source: each
consumer reads keys through `.get(key, default)` with its own local default
(e.g. `max_charging_power_kw` defaults to 150 in
`ChargingService._calculate_station_score` but to 50 in
`RouteOptimizerAgent._calculate_charging_time`), so every field is `Option`
and the default is applied at each use site exactly as in the source. -/
structure VehicleSpecsDict where
  battery_capacity_kwh : Option ℚ
  max_charging_power_kw : Option ℚ
  energy_consumption_kwh_per_100km : Option ℚ
  supported_connectors : Option (List String)
deriving DecidableEq

/-- The `preferences` dict of `ChargingService._calculate_station_score`. -/
structure Preferences where
  preferred_charging_networks : Option (List String)
  prefer_fast_charging : Option Bool
  preferred_amenities : Option (List String)
deriving DecidableEq

/-- Model of `ChargingService._filter_compatible_stations`
(charging_service.py lines 146-171): keep the stations having at least one
connector contained in `vehicle_specs.get("supported_connectors", [])`. -/
def filter_compatible_stations (stations : List CSStation)
    (vehicleSpecs : VehicleSpecsDict) : List CSStation :=
  let vehicle_connectors := vehicleSpecs.supported_connectors.getD []
  stations.filter fun station =>
    (station.connector_types.getD []).any fun connector =>
      vehicle_connectors.contains connector

/-- Model of `ChargingService._calculate_station_score`
(charging_service.py lines 173-235).  Python raises `ZeroDivisionError` when
`station.get("stalls", 1)` is zero; rational division returns 0 there, so
every theorem about this function assumes a positive stall count (the
Python default is 1). -/
def calculate_station_score (station : CSStation)
    (vehicleSpecs : VehicleSpecsDict) (preferences : Option Preferences) : ℚ :=
  let score1 := station.rating.getD 3 / 5 * 20
  let vehicle_max_power := vehicleSpecs.max_charging_power_kw.getD 150
  let station_power := station.power_kw.getD 50
  let effective_power := min station_power vehicle_max_power
  let power_score := effective_power / 350 * 25
  let score2 := score1 + power_score
  let total_stalls := station.stalls.getD 1
  let available_stalls := station.available_stalls.getD 1
  let availability_frac := available_stalls / total_stalls
  let score3 := score2 + availability_frac * 20
  let wait_time := station.wait_time_minutes.getD 0
  let wait_score := max 0 (15 - wait_time)
  let score4 := score3 + wait_score
  let distance := station.distance_km.getD 0
  let distance_score := max 0 (20 - distance * 2)
  let score5 := score4 + distance_score
  let score6 :=
    match preferences with
    | none => score5
    | some prefs =>
      let preferred_networks := prefs.preferred_charging_networks.getD []
      let network_bonus : ℚ :=
        if !preferred_networks.isEmpty &&
            (station.network.any fun n => preferred_networks.contains n)
        then 10 else 0
      let fast_bonus : ℚ :=
        if prefs.prefer_fast_charging.getD true = true ∧ 150 ≤ station_power
        then 5 else 0
      let preferred_amenities := prefs.preferred_amenities.getD []
      let station_amenities := station.amenities.getD []
      let amenity_matches :=
        preferred_amenities.countP fun amenity => station_amenities.contains amenity
      score5 + network_bonus + fast_bonus + (amenity_matches : ℚ) * 2
  min 100 score6

/-- Python's builtin `int()` applied to a float: truncation toward zero. -/
def python_int (q : ℚ) : ℤ :=
  if q < 0 then -Int.floor (-q) else Int.floor q

/-- Model of `RouteOptimizerAgent._calculate_charging_time`
(route_optimizer.py lines 237-255): energy to add is
`charge_needed * battery_capacity`, the charging power is the station's
power bounded by `vehicle_specs.get('max_charging_power_kw', 50)`, a fixed
average charging efficiency of 0.85 derates it, and the hours are converted
to integer minutes with `int(...)`.  The `station_power_kw` argument stands
for the required dict key `charging_station['power_kw']`. -/
def calculate_charging_time (chargeNeeded : ℚ) (vehicleSpecs : VehicleSpecsDict)
    (stationPowerKw : ℚ) : ℤ :=
  let battery_capacity := vehicleSpecs.battery_capacity_kwh.getD 60
  let max_charging_power := vehicleSpecs.max_charging_power_kw.getD 50
  let energy_to_add := chargeNeeded * battery_capacity
  let charging_power := min stationPowerKw max_charging_power
  let avg_charging_efficiency : ℚ := 0.85
  let charging_time_hours := energy_to_add / (charging_power * avg_charging_efficiency)
  python_int (charging_time_hours * 60)

/-- Battery level at the start of the i-th leg of `_find_optimal_stops`:
the caller-supplied battery for the first leg and the preferred charge level
for every later leg, because line 332 sets `current_battery` to
`preferred_charge_percent` after every stop. -/
def leg_start_battery (init pref : ℚ) : ℕ → ℚ
  | 0 => init
  | _ + 1 => pref

/-!
Concrete scenario data used by witnesses and counterexamples.  All points
lie on the equator, where the haversine distance is (lon2 - lon1) degrees
times about 111.19 km; `equator_dist` uses 111 km per degree, and every
comparison in the scenarios below clears its threshold by a margin far
larger than the 0.2 percent this approximation introduces.
-/

/-- Equatorial approximation of `haversine_distance`: 111 km per degree of
longitude (in either direction), for points on the equator. -/
def equator_dist : Dist := fun _lat1 lon1 _lat2 lon2 =>
  if lon1 ≤ lon2 then (lon2 - lon1) * 111 else (lon1 - lon2) * 111

/-- A Type2-only station 49.95 km east of the origin (too close for the
100 km candidate filter). -/
def station_type2_near : Station :=
  { name := "Kocaeli AC", city := "Kocaeli", latitude := 0, longitude := 0.45
    power_kw := some 250, connector_type := some ("Type2"), price_per_kwh := some 0.40 }

/-- A Type2-only station 133.2 km east of the origin. -/
def station_type2_mid : Station :=
  { name := "Eskisehir DC", city := "Eskisehir", latitude := 0, longitude := 1.2
    power_kw := some 250, connector_type := some ("Type2"), price_per_kwh := some 0.40 }

/-- A Type2-only station 266.4 km east of the origin. -/
def station_type2_far : Station :=
  { name := "Ankara DC", city := "Ankara", latitude := 0, longitude := 2.4
    power_kw := some 250, connector_type := some ("Type2"), price_per_kwh := some 0.40 }

/-- A charging-service station whose only data is a negative rating, zero
power, no available stalls, a long wait and a long detour: every unclamped
sub-score is then at its minimum. -/
def cs_station_bad_rating : CSStation :=
  { network := none, connector_types := some ["CCS1"], rating := some (-5)
    power_kw := some 0, stalls := some 1, available_stalls := some 0
    wait_time_minutes := some 20, distance_km := some 15, amenities := none }

/-- A CCS1/Tesla charging-service station used by the connector-filter
witness. -/
def cs_station_ccs : CSStation :=
  { network := some ("Tesla"), connector_types := some ["CCS1", "Tesla"]
    rating := some 4.5, power_kw := some 250, stalls := some 12
    available_stalls := some 8, wait_time_minutes := some 0
    distance_km := some 1, amenities := some ["WiFi"] }

/-- A vehicle-specs dict supporting only CCS1, 75 kWh battery, 50 kW max
charging power. -/
def vehicle_ccs : VehicleSpecsDict :=
  { battery_capacity_kwh := some 75, max_charging_power_kw := some 50
    energy_consumption_kwh_per_100km := some 18
    supported_connectors := some ["CCS1"] }

section Lemmas

/-- The fold underlying `python_max_by` yields an element of the list headed
by the accumulator. -/
lemma python_max_by_foldl_mem {α : Type} (f : α → ℚ) :
    ∀ (xs : List α) (b : α),
      xs.foldl (fun best y => if f best < f y then y else best) b ∈ b :: xs := by
  intro xs
  induction xs with
  | nil => intro b; simp
  | cons y ys ih =>
    intro b
    simp only [List.foldl_cons]
    rcases List.mem_cons.mp (ih (if f b < f y then y else b)) with h1 | h1
    · rw [h1]
      by_cases hc : f b < f y
      · simp [hc]
      · simp [hc]
    · simp [h1]

/-- Python's `max(xs, key=f)` returns an element of `xs`. -/
lemma python_max_by_mem {α : Type} (f : α → ℚ) {l : List α} {c : α}
    (h : python_max_by f l = some c) : c ∈ l := by
  cases l with
  | nil => simp [python_max_by] at h
  | cons x xs =>
    simp only [python_max_by, Option.some.injEq] at h
    rw [← h]
    exact python_max_by_foldl_mem f xs x

/-- The fold underlying `python_max_by` dominates both the accumulator and
every element of the list. -/
lemma python_max_by_foldl_le {α : Type} (f : α → ℚ) :
    ∀ (xs : List α) (b : α),
      f b ≤ f (xs.foldl (fun best y => if f best < f y then y else best) b) ∧
      ∀ x ∈ xs, f x ≤ f (xs.foldl (fun best y => if f best < f y then y else best) b) := by
  intro xs
  induction xs with
  | nil => intro b; exact ⟨le_refl _, by simp⟩
  | cons y ys ih =>
    intro b
    simp only [List.foldl_cons]
    obtain ⟨h1, h2⟩ := ih (if f b < f y then y else b)
    have hb : f b ≤ f (if f b < f y then y else b) := by
      by_cases hc : f b < f y
      · rw [if_pos hc]; exact le_of_lt hc
      · rw [if_neg hc]
    have hy : f y ≤ f (if f b < f y then y else b) := by
      by_cases hc : f b < f y
      · rw [if_pos hc]
      · rw [if_neg hc]; exact le_of_not_lt hc
    refine ⟨le_trans hb h1, ?_⟩
    intro x hx
    rcases List.mem_cons.mp hx with rfl | hx
    · exact le_trans hy h1
    · exact h2 x hx

/-- Python's `max(xs, key=f)` attains the maximal key. -/
lemma python_max_by_le {α : Type} (f : α → ℚ) {l : List α} {c : α}
    (h : python_max_by f l = some c) : ∀ x ∈ l, f x ≤ f c := by
  cases l with
  | nil => simp
  | cons x xs =>
    simp only [python_max_by, Option.some.injEq] at h
    intro z hz
    rcases List.mem_cons.mp hz with rfl | hz
    · rw [← h]; exact (python_max_by_foldl_le f xs z).1
    · rw [← h]; exact (python_max_by_foldl_le f xs x).2 z hz

/-- Membership in the candidate list implies the three filter bounds and
that the candidate is the annotation of a catalog station. -/
lemma mem_candidate_stations {d : Dist} {curLat curLon endLat endLon rem : ℚ}
    {stations : List Station} {c : Candidate}
    (h : c ∈ candidate_stations d curLat curLon endLat endLon rem stations) :
    (∃ st ∈ stations, c = station_candidate d curLat curLon endLat endLon st) ∧
    100 ≤ c.distance_from_current ∧ c.distance_from_current ≤ rem * 0.80 ∧
    c.detour ≤ 30 := by
  simp only [candidate_stations, List.mem_filterMap] at h
  obtain ⟨st, hst, hc⟩ := h
  split_ifs at hc with h1 h2 h3
  all_goals cases hc
  exact ⟨⟨st, hst, rfl⟩, le_of_not_lt h1, le_of_not_lt h2, le_of_not_lt h3⟩

/-- A catalog station passing the three filter bounds appears (annotated) in
the candidate list. -/
lemma candidate_stations_mem_of {d : Dist} {curLat curLon endLat endLon rem : ℚ}
    {stations : List Station} {st : Station} (hst : st ∈ stations)
    (h1 : 100 ≤ (station_candidate d curLat curLon endLat endLon st).distance_from_current)
    (h2 : (station_candidate d curLat curLon endLat endLon st).distance_from_current ≤
      rem * 0.80)
    (h3 : (station_candidate d curLat curLon endLat endLon st).detour ≤ 30) :
    station_candidate d curLat curLon endLat endLon st ∈
      candidate_stations d curLat curLon endLat endLon rem stations := by
  simp only [candidate_stations, List.mem_filterMap]
  refine ⟨st, hst, ?_⟩
  rw [if_neg (not_lt.mpr h1), if_neg (not_lt.mpr h2), if_neg (not_lt.mpr h3)]

/-- Past the iteration ceiling the loop body always breaks with the stops
unchanged. -/
lemma find_stops_step_ceiling {d : Dist} {endLat endLon : ℚ} {stations : List Station}
    {r cap minC pref la lo b : ℚ} {seg : ℕ} {stops : List StopInfo} (h : 10 < seg) :
    find_stops_step d endLat endLon stations r cap minC pref la lo b seg stops =
      .halt stops := by
  simp only [find_stops_step]
  split_ifs
  · rfl
  · rfl

/-- Inversion principle for one loop iteration: either it breaks with the
stops unchanged, or the candidate maximization succeeds with some `best` and
the iteration appends `best`'s `stop_info`, breaking (destination reachable
afterwards is impossible here; the break is the 10-stop cap) or continuing
from the station at the preferred charge with fewer than 10 stops. -/
lemma find_stops_step_spec (d : Dist) (endLat endLon : ℚ) (stations : List Station)
    (r cap minC pref la lo b : ℚ) (seg : ℕ) (stops : List StopInfo) :
    find_stops_step d endLat endLon stations r cap minC pref la lo b seg stops =
        .halt stops ∨
      ∃ best,
        python_max_by Candidate.progress_score
            (candidate_stations d la lo endLat endLon
              (r * (b - minC) / 100) stations) = some best ∧
        (find_stops_step d endLat endLon stations r cap minC pref la lo b seg stops =
            .halt (stops ++ [stop_info cap r minC pref b seg stops best]) ∨
          (find_stops_step d endLat endLon stations r cap minC pref la lo b seg stops =
              .next best.base.latitude best.base.longitude pref
                (stops ++ [stop_info cap r minC pref b seg stops best]) ∧
            stops.length + 1 ≤ 9)) := by
  simp only [find_stops_step]
  split_ifs with h1 h2
  · exact Or.inl rfl
  · exact Or.inl rfl
  · cases hmax : python_max_by Candidate.progress_score
        (candidate_stations d la lo endLat endLon (r * (b - minC) / 100) stations) with
    | none => exact Or.inl rfl
    | some best =>
      by_cases hlen : 10 ≤ (stops ++ [stop_info cap r minC pref b seg stops best]).length
      · refine Or.inr ⟨best, rfl, Or.inl ?_⟩
        simp only [if_pos hlen]
      · refine Or.inr ⟨best, rfl, Or.inr ⟨?_, ?_⟩⟩
        · simp only [if_neg hlen]
        · simp only [List.length_append, List.length_singleton] at hlen
          omega

/-- Adding fuel beyond the code's own iteration ceiling does not change the
loop's result: with `seg` segments already counted, at most `11 - seg` more
iterations can run before the `segment_number > 10` guard breaks the loop. -/
lemma find_stops_loop_succ {d : Dist} {endLat endLon : ℚ} {stations : List Station}
    {r cap minC pref : ℚ} :
    ∀ (fuel seg : ℕ), 11 - seg ≤ fuel → ∀ (la lo b : ℚ) (stops : List StopInfo),
      find_stops_loop d endLat endLon stations r cap minC pref (fuel + 1) la lo b seg stops =
        find_stops_loop d endLat endLon stations r cap minC pref fuel la lo b seg stops := by
  intro fuel
  induction fuel with
  | zero =>
    intro seg hseg la lo b stops
    have h10 : 10 < seg + 1 := by omega
    simp only [find_stops_loop]
    rw [find_stops_step_ceiling h10]
  | succ n ih =>
    intro seg hseg la lo b stops
    simp only [find_stops_loop]
    cases hstep : find_stops_step d endLat endLon stations r cap minC pref la lo b
        (seg + 1) stops with
    | halt s => rfl
    | next la2 lo2 b2 s => exact ih (seg + 1) (by omega) la2 lo2 b2 s

/-- Any fuel of at least 11 computes the same stop list as fuel 11: the
`while True` loop of `_find_optimal_stops` always exits within the code's
iteration ceiling. -/
lemma find_stops_loop_stable {d : Dist} {endLat endLon : ℚ} {stations : List Station}
    {r cap minC pref : ℚ} (la lo b : ℚ) (stops : List StopInfo) {fuel : ℕ}
    (h : 11 ≤ fuel) :
    find_stops_loop d endLat endLon stations r cap minC pref fuel la lo b 0 stops =
      find_stops_loop d endLat endLon stations r cap minC pref 11 la lo b 0 stops := by
  induction fuel, h using Nat.le_induction with
  | base => rfl
  | succ n hn ih =>
    rw [find_stops_loop_succ n 0 (by omega) la lo b stops, ih]

/-- The loop never grows the stop list beyond 10 entries. -/
lemma find_stops_loop_length {d : Dist} {endLat endLon : ℚ} {stations : List Station}
    {r cap minC pref : ℚ} :
    ∀ (fuel : ℕ) (la lo b : ℚ) (seg : ℕ) (stops : List StopInfo), stops.length ≤ 9 →
      (find_stops_loop d endLat endLon stations r cap minC pref fuel la lo b seg
        stops).length ≤ 10 := by
  intro fuel
  induction fuel with
  | zero =>
    intro la lo b seg stops hlen
    simpa [find_stops_loop] using by omega
  | succ n ih =>
    intro la lo b seg stops hlen
    simp only [find_stops_loop]
    rcases find_stops_step_spec d endLat endLon stations r cap minC pref la lo b
        (seg + 1) stops with hs | ⟨best, _, hs | ⟨hs, h9⟩⟩
    · rw [hs]; simpa using by omega
    · rw [hs]; simpa using by omega
    · rw [hs]
      exact ih _ _ _ _ _ (by simpa using h9)

/-- Any property of the accumulated stop list that is preserved by appending
the `stop_info` of a selected best candidate is preserved by the whole
loop. -/
lemma find_stops_loop_invariant {d : Dist} {endLat endLon : ℚ} {stations : List Station}
    {r cap minC pref : ℚ} (P : List StopInfo → Prop)
    (hstep : ∀ (la lo b : ℚ) (seg : ℕ) (stops : List StopInfo) (best : Candidate),
      python_max_by Candidate.progress_score
          (candidate_stations d la lo endLat endLon (r * (b - minC) / 100) stations) =
        some best →
      P stops → P (stops ++ [stop_info cap r minC pref b seg stops best])) :
    ∀ (fuel : ℕ) (la lo b : ℚ) (seg : ℕ) (stops : List StopInfo),
      P stops →
      P (find_stops_loop d endLat endLon stations r cap minC pref fuel la lo b seg stops) := by
  intro fuel
  induction fuel with
  | zero =>
    intro la lo b seg stops h
    simpa [find_stops_loop] using h
  | succ n ih =>
    intro la lo b seg stops h
    simp only [find_stops_loop]
    rcases find_stops_step_spec d endLat endLon stations r cap minC pref la lo b
        (seg + 1) stops with hs | ⟨best, hmax, hs | ⟨hs, _⟩⟩
    · rw [hs]; exact h
    · rw [hs]; exact hstep la lo b (seg + 1) stops best hmax h
    · rw [hs]; exact ih _ _ _ _ _ (hstep la lo b (seg + 1) stops best hmax h)

/-- Decomposition of a loop run: the result extends the incoming stop list
by a tail in which every stop's cost is its energy times its unit price, its
charging time is its energy over its (station) power times 60, and the
energy of the i-th appended stop is computed from the battery at the start
of its leg: the loop's entry battery for the first appended stop, and the
preferred charge level for all later ones. -/
lemma find_stops_loop_tail (d : Dist) (endLat endLon : ℚ) (stations : List Station)
    (r cap minC pref : ℚ) :
    ∀ (fuel : ℕ) (la lo b : ℚ) (seg : ℕ) (stops : List StopInfo),
      ∃ tail,
        find_stops_loop d endLat endLon stations r cap minC pref fuel la lo b seg stops =
          stops ++ tail ∧
        (∀ s ∈ tail,
          s.estimated_cost = s.kwh_charged * s.price_per_kwh ∧
          s.charging_time_minutes = s.kwh_charged / s.charging_power_kw * 60) ∧
        ∀ i (h : i < tail.length),
          (tail.get ⟨i, h⟩).kwh_charged =
            cap * (pref - leg_start_battery b pref i) / 100 := by
  intro fuel
  induction fuel with
  | zero =>
    intro la lo b seg stops
    exact ⟨[], by simp [find_stops_loop], by simp, by simp⟩
  | succ n ih =>
    intro la lo b seg stops
    simp only [find_stops_loop]
    rcases find_stops_step_spec d endLat endLon stations r cap minC pref la lo b
        (seg + 1) stops with hs | ⟨best, _, hs | ⟨hs, _⟩⟩
    · rw [hs]
      exact ⟨[], by simp, by simp, by simp⟩
    · rw [hs]
      refine ⟨[stop_info cap r minC pref b (seg + 1) stops best], rfl, ?_, ?_⟩
      · intro s hs2
        rcases List.mem_singleton.mp hs2 with rfl
        exact ⟨rfl, rfl⟩
      · intro i hi
        simp only [List.length_singleton] at hi
        obtain rfl : i = 0 := by omega
        rfl
    · rw [hs]
      obtain ⟨tail, heq, hcost, hkwh⟩ :=
        ih best.base.latitude best.base.longitude pref (seg + 1)
          (stops ++ [stop_info cap r minC pref b (seg + 1) stops best])
      refine ⟨stop_info cap r minC pref b (seg + 1) stops best :: tail, ?_, ?_, ?_⟩
      · exact heq.trans (by rw [List.append_assoc, List.singleton_append])
      · intro s hs2
        rcases List.mem_cons.mp hs2 with rfl | hs2
        · exact ⟨rfl, rfl⟩
        · exact hcost s hs2
      · intro i hi
        cases i with
        | zero => rfl
        | succ j =>
          have hj : j < tail.length := by simpa using hi
          have := hkwh j hj
          simp only [List.get_cons_succ]
          rw [this]
          cases j <;> rfl

set_option maxHeartbeats 1000000 in
/-- Concrete run: with the only station 49.95 km from the start (below the
100 km candidate floor) and a 666 km trip on 240 km of usable range, the
planner's first iteration finds no candidates and returns no stops. -/
lemma near_scenario_stops_eval :
    find_optimal_stops equator_dist 0 0 0 6 [station_type2_near] 400 75 80 20 80 = [] := by
  norm_num [find_optimal_stops, find_stops_loop, find_stops_step, candidate_stations,
    List.filterMap_cons, station_candidate, python_max_by, stop_info, equator_dist,
    station_type2_near]

/-- Concrete run: the full response of the near-station scenario. -/
lemma near_scenario_response_eval :
    calculate_charging_stops equator_dist 0 0 0 6 400 75 80 20 80 [station_type2_near] =
      create_route_response 666 400 [] none := by
  norm_num [calculate_charging_stops, near_scenario_stops_eval, equator_dist]

set_option maxHeartbeats 4000000 in
/-- Concrete run: a 1332 km trip starting at 70 percent charge with two
stations 133.2 km apart along the way produces exactly two stops; the first
charges 7.5 kWh from the caller's 70 percent, the second charges 0 kWh
because the planner computes energy from the leg-start battery (already at
the preferred 80 percent), not from the battery on arrival. -/
lemma two_stop_scenario_eval :
    find_optimal_stops equator_dist 0 0 0 12 [station_type2_mid, station_type2_far]
      400 75 70 20 80 =
    [{ segment := 1, station_name := "Eskisehir DC", city := "Eskisehir",
       latitude := 0, longitude := 6/5, distance_from_start := 666/5,
       distance_traveled := 666/5, distance_to_destination := 5994/5,
       battery_on_arrival := 367/10, battery_after_charge := 80,
       kwh_charged := 15/2, charging_power_kw := 250,
       charging_time_minutes := 9/5, connector_type := "Type2",
       price_per_kwh := 2/5, estimated_cost := 3 },
     { segment := 2, station_name := "Ankara DC", city := "Ankara",
       latitude := 0, longitude := 12/5, distance_from_start := 1332/5,
       distance_traveled := 666/5, distance_to_destination := 5328/5,
       battery_on_arrival := 467/10, battery_after_charge := 80,
       kwh_charged := 0, charging_power_kw := 250,
       charging_time_minutes := 0, connector_type := "Type2",
       price_per_kwh := 2/5, estimated_cost := 0 }] := by
  norm_num [find_optimal_stops, find_stops_loop, find_stops_step, candidate_stations,
    List.filterMap_cons, station_candidate, python_max_by, stop_info, equator_dist,
    station_type2_mid, station_type2_far]

end Lemmas

/-- C2: for every input — any station list including the empty list, any
coordinates, any battery and range parameters — the `while` loop of
`_find_optimal_stops` terminates within the code's hard iteration ceiling
(any iteration bound of at least 11 yields the very result produced at the
ceiling, since the `segment_number > 10` guard breaks the loop by then), and
the returned list holds at most 10 charging stops. -/
theorem claim2_termination_and_stop_cap (d : Dist) (startLat startLon endLat endLon :
      ℚ) (stations : List Station) (vehicleRangeKm batteryCapacityKwh
      currentBatteryPercent minChargePercent preferredChargePercent : ℚ)
    (fuel : ℕ) (hfuel : 11 ≤ fuel) :
    find_stops_loop d endLat endLon stations vehicleRangeKm batteryCapacityKwh
        minChargePercent preferredChargePercent fuel startLat startLon
        currentBatteryPercent 0 [] =
      find_optimal_stops d startLat startLon endLat endLon stations vehicleRangeKm
        batteryCapacityKwh currentBatteryPercent minChargePercent
        preferredChargePercent ∧
    (find_optimal_stops d startLat startLon endLat endLon stations vehicleRangeKm
        batteryCapacityKwh currentBatteryPercent minChargePercent
        preferredChargePercent).length ≤ 10 := by
  constructor
  · exact find_stops_loop_stable startLat startLon currentBatteryPercent [] hfuel
  · exact find_stops_loop_length 11 startLat startLon currentBatteryPercent 0 []
      (by simp)

/-- Witness for C2 at a concrete input and fuel 12. -/
theorem claim2_witness :
    find_stops_loop equator_dist 0 6 [station_type2_near] 400 75 20 80 12 0 0 80 0 [] =
      find_optimal_stops equator_dist 0 0 0 6 [station_type2_near] 400 75 80 20 80 ∧
    (find_optimal_stops equator_dist 0 0 0 6 [station_type2_near]
      400 75 80 20 80).length ≤ 10 :=
  claim2_termination_and_stop_cap equator_dist 0 0 0 6 [station_type2_near]
    400 75 80 20 80 12 (by norm_num)

/-- C3: when the great-circle distance from start to destination is at most
the usable range `vehicle_range_km * (current_battery_percent -
min_charge_percent) / 100`, `calculate_charging_stops` returns a response
with an empty charging-stop list and `success = true`. -/
theorem claim3_within_range_no_stops (d : Dist) (startLat startLon endLat endLon
      vehicleRangeKm batteryCapacityKwh currentBatteryPercent minChargePercent
      preferredChargePercent : ℚ) (allStations : List Station)
    (h : d startLat startLon endLat endLon ≤
      vehicleRangeKm * (currentBatteryPercent - minChargePercent) / 100) :
    (calculate_charging_stops d startLat startLon endLat endLon vehicleRangeKm
        batteryCapacityKwh currentBatteryPercent minChargePercent
        preferredChargePercent allStations).charging_stops = [] ∧
    (calculate_charging_stops d startLat startLon endLat endLon vehicleRangeKm
        batteryCapacityKwh currentBatteryPercent minChargePercent
        preferredChargePercent allStations).success = true := by
  by_cases he : allStations.isEmpty
  · simp [calculate_charging_stops, he, create_route_response]
  · simp [calculate_charging_stops, he, h, create_route_response]

/-- Witness for C3: a 111 km trip with 240 km of usable range. -/
theorem claim3_witness :
    equator_dist 0 0 0 1 ≤ 400 * ((80 : ℚ) - 20) / 100 ∧
    (calculate_charging_stops equator_dist 0 0 0 1 400 75 80 20 80
      [station_type2_near]).charging_stops = [] ∧
    (calculate_charging_stops equator_dist 0 0 0 1 400 75 80 20 80
      [station_type2_near]).success = true :=
  ⟨by norm_num [equator_dist], claim3_within_range_no_stops equator_dist 0 0 0 1
    400 75 80 20 80 [station_type2_near] (by norm_num [equator_dist])⟩

/-- C5: assuming the trip starts with at least the minimum charge, every
stop returned by `_find_optimal_stops` reports `battery_on_arrival` at least
`min_charge_percent` (line 317 clamps the field with
`max(battery_on_arrival, min_charge_percent)`, so the bound holds exactly,
with no epsilon needed). -/
theorem claim5_battery_on_arrival_at_least_min (d : Dist)
    (startLat startLon endLat endLon : ℚ) (stations : List Station)
    (vehicleRangeKm batteryCapacityKwh currentBatteryPercent minChargePercent
      preferredChargePercent : ℚ)
    (h : minChargePercent ≤ currentBatteryPercent) :
    ∀ s ∈ find_optimal_stops d startLat startLon endLat endLon stations
        vehicleRangeKm batteryCapacityKwh currentBatteryPercent minChargePercent
        preferredChargePercent,
      minChargePercent ≤ s.battery_on_arrival := by
  refine find_stops_loop_invariant
    (fun stops => ∀ s ∈ stops, minChargePercent ≤ s.battery_on_arrival)
    ?_ 11 startLat startLon currentBatteryPercent 0 [] (by simp)
  intro la lo b seg stops best hmax hP s hs
  rcases List.mem_append.mp hs with hs | hs
  · exact hP s hs
  · rcases List.mem_singleton.mp hs with rfl
    exact le_max_right _ _

/-- Witness for C5 on a two-stop scenario. -/
theorem claim5_witness :
    (20 : ℚ) ≤ 70 ∧
    (20 : ℚ) ≤ ((find_optimal_stops equator_dist 0 0 0 12
      [station_type2_mid, station_type2_far] 400 75 70 20 80).get
        ⟨0, by simp [two_stop_scenario_eval]⟩).battery_on_arrival :=
  ⟨by norm_num, claim5_battery_on_arrival_at_least_min equator_dist 0 0 0 12
    [station_type2_mid, station_type2_far] 400 75 70 20 80 (by norm_num) _
    (List.get_mem _ _ _)⟩

/-- C6: across the stop list returned by `_find_optimal_stops`,
`distance_from_start` is strictly increasing (each stop's value strictly
exceeds its predecessor's, so no two stops share a position): each stop's
`distance_from_start` is the running sum of the `distance_traveled` values,
and every selected candidate's `distance_from_current` is at least 100 km by
the filter at line 251. -/
theorem claim6_distance_from_start_strictly_increasing (d : Dist)
    (startLat startLon endLat endLon : ℚ) (stations : List Station)
    (vehicleRangeKm batteryCapacityKwh currentBatteryPercent minChargePercent
      preferredChargePercent : ℚ) :
    ((find_optimal_stops d startLat startLon endLat endLon stations vehicleRangeKm
        batteryCapacityKwh currentBatteryPercent minChargePercent
        preferredChargePercent).map StopInfo.distance_from_start).Pairwise (· < ·) := by
  refine (find_stops_loop_invariant
    (fun stops =>
      ((stops.map StopInfo.distance_from_start).Pairwise (· < ·)) ∧
      ∀ s ∈ stops, s.distance_from_start ≤ (stops.map StopInfo.distance_traveled).sum)
    ?_ 11 startLat startLon currentBatteryPercent 0 [] (by simp)).1
  intro la lo b seg stops best hmax hP
  obtain ⟨hpw, hle⟩ := hP
  have h100 : 100 ≤ best.distance_from_current :=
    (mem_candidate_stations (python_max_by_mem _ hmax)).2.1
  have hdt : (stop_info batteryCapacityKwh vehicleRangeKm minChargePercent
      preferredChargePercent b seg stops best).distance_traveled =
    best.distance_from_current := rfl
  have hdfs : (stop_info batteryCapacityKwh vehicleRangeKm minChargePercent
      preferredChargePercent b seg stops best).distance_from_start =
    (stops.map StopInfo.distance_traveled).sum + best.distance_from_current := rfl
  constructor
  · rw [List.map_append]
    refine List.pairwise_append.mpr ⟨hpw, by simp, ?_⟩
    intro a ha b2 hb2
    simp only [List.map_singleton, List.mem_singleton] at hb2
    obtain ⟨s, hsmem, rfl⟩ := List.mem_map.mp ha
    rw [hb2, hdfs]
    calc s.distance_from_start ≤ (stops.map StopInfo.distance_traveled).sum :=
        hle s hsmem
      _ < (stops.map StopInfo.distance_traveled).sum + best.distance_from_current := by
        linarith
  · intro s hs
    rw [List.map_append, List.sum_append, List.map_singleton, List.sum_singleton, hdt]
    rcases List.mem_append.mp hs with hs | hs
    · have := hle s hs
      linarith
    · rcases List.mem_singleton.mp hs with rfl
      rw [hdfs]

/-- C7: whenever the candidate maximization of an iteration of
`_find_optimal_stops` succeeds, the selected candidate is the annotation of
a catalog station, satisfies the three filters (at least 100 km from the
current position, at most 80 percent of the remaining usable range, detour
at most 30 km — the code keeps a candidate exactly when none of
`dist < 100`, `dist > 0.80 * remaining` and `detour > 30` holds), its score
is `distance_from_current * 10 - detour * 50`, and that score dominates the
score of every catalog station satisfying the same filters.  The loop body
(`find_stops_step`) emits precisely this candidate's `stop_info` at such an
iteration. -/
theorem claim7_greedy_selects_max_score (d : Dist)
    (curLat curLon endLat endLon remainingRange : ℚ) (stations : List Station)
    (best : Candidate)
    (hmax : python_max_by Candidate.progress_score
        (candidate_stations d curLat curLon endLat endLon remainingRange stations) =
      some best) :
    (∃ st ∈ stations, best = station_candidate d curLat curLon endLat endLon st) ∧
    100 ≤ best.distance_from_current ∧
    best.distance_from_current ≤ remainingRange * 0.80 ∧
    best.detour ≤ 30 ∧
    best.progress_score = best.distance_from_current * 10 - best.detour * 50 ∧
    ∀ st ∈ stations,
      100 ≤ (station_candidate d curLat curLon endLat endLon st).distance_from_current →
      (station_candidate d curLat curLon endLat endLon st).distance_from_current ≤
        remainingRange * 0.80 →
      (station_candidate d curLat curLon endLat endLon st).detour ≤ 30 →
      (station_candidate d curLat curLon endLat endLon st).progress_score ≤
        best.progress_score := by
  obtain ⟨⟨st0, hst0, hbest⟩, h100, h80, h30⟩ :=
    mem_candidate_stations (python_max_by_mem _ hmax)
  refine ⟨⟨st0, hst0, hbest⟩, h100, h80, h30, ?_, ?_⟩
  · rw [hbest]; rfl
  · intro st hst hf1 hf2 hf3
    exact python_max_by_le _ hmax _ (candidate_stations_mem_of hst hf1 hf2 hf3)

/-- Witness for C7 on a concrete candidate computation. -/
theorem claim7_witness :
    100 ≤ (station_candidate equator_dist 0 0 0 12
      station_type2_mid).distance_from_current ∧
    (station_candidate equator_dist 0 0 0 12 station_type2_mid).progress_score ≤
      (station_candidate equator_dist 0 0 0 12 station_type2_mid).progress_score :=
  ⟨(claim7_greedy_selects_max_score equator_dist 0 0 0 12 (400 * (70 - 20) / 100)
      [station_type2_mid, station_type2_far]
      (station_candidate equator_dist 0 0 0 12 station_type2_mid)
      (by norm_num [python_max_by, candidate_stations, List.filterMap_cons,
        station_candidate, equator_dist, station_type2_mid, station_type2_far])).2.1,
   (claim7_greedy_selects_max_score equator_dist 0 0 0 12 (400 * (70 - 20) / 100)
      [station_type2_mid, station_type2_far]
      (station_candidate equator_dist 0 0 0 12 station_type2_mid)
      (by norm_num [python_max_by, candidate_stations, List.filterMap_cons,
        station_candidate, equator_dist, station_type2_mid,
        station_type2_far])).2.2.2.2.2 station_type2_mid (by simp)
      (by norm_num [station_candidate, equator_dist, station_type2_mid])
      (by norm_num [station_candidate, equator_dist, station_type2_mid])
      (by norm_num [station_candidate, equator_dist, station_type2_mid])⟩

/-- C10: the energy and cost of every emitted stop are computed from the
battery at the start of the leg, not from the battery on arrival:
`kwh_charged = battery_capacity_kwh * (preferred_charge_percent -
leg-start battery) / 100` — the caller's battery for the first stop and the
preferred level for every later one — and `estimated_cost = kwh_charged *
price_per_kwh`.  The energy spent driving to the station (reflected in
`battery_on_arrival`) never enters `kwh_charged`. -/
theorem claim10_kwh_and_cost_from_leg_start (d : Dist)
    (startLat startLon endLat endLon : ℚ) (stations : List Station)
    (vehicleRangeKm batteryCapacityKwh currentBatteryPercent minChargePercent
      preferredChargePercent : ℚ) :
    (∀ s ∈ find_optimal_stops d startLat startLon endLat endLon stations
        vehicleRangeKm batteryCapacityKwh currentBatteryPercent minChargePercent
        preferredChargePercent,
      s.estimated_cost = s.kwh_charged * s.price_per_kwh) ∧
    ∀ i (h : i < (find_optimal_stops d startLat startLon endLat endLon stations
        vehicleRangeKm batteryCapacityKwh currentBatteryPercent minChargePercent
        preferredChargePercent).length),
      ((find_optimal_stops d startLat startLon endLat endLon stations vehicleRangeKm
          batteryCapacityKwh currentBatteryPercent minChargePercent
          preferredChargePercent).get ⟨i, h⟩).kwh_charged =
        batteryCapacityKwh * (preferredChargePercent -
          leg_start_battery currentBatteryPercent preferredChargePercent i) / 100 := by
  obtain ⟨tail, heq, hcost, hkwh⟩ := find_stops_loop_tail d endLat endLon stations
    vehicleRangeKm batteryCapacityKwh minChargePercent preferredChargePercent
    11 startLat startLon currentBatteryPercent 0 []
  have heq2 : find_optimal_stops d startLat startLon endLat endLon stations
      vehicleRangeKm batteryCapacityKwh currentBatteryPercent minChargePercent
      preferredChargePercent = tail := by
    simpa [find_optimal_stops] using heq
  rw [heq2]
  exact ⟨fun s hs => (hcost s hs).1, hkwh⟩

/-- Witness for C10 on the two-stop scenario: the first stop charges from
the caller's 70 percent, the second from the preferred 80 percent (hence
zero energy). -/
theorem claim10_witness :
    ((find_optimal_stops equator_dist 0 0 0 12 [station_type2_mid, station_type2_far]
        400 75 70 20 80).get ⟨0, by simp [two_stop_scenario_eval]⟩).kwh_charged =
      75 * (80 - leg_start_battery 70 80 0) / 100 ∧
    ((find_optimal_stops equator_dist 0 0 0 12 [station_type2_mid, station_type2_far]
        400 75 70 20 80).get ⟨1, by simp [two_stop_scenario_eval]⟩).kwh_charged =
      75 * (80 - leg_start_battery 70 80 1) / 100 :=
  ⟨(claim10_kwh_and_cost_from_leg_start equator_dist 0 0 0 12
      [station_type2_mid, station_type2_far] 400 75 70 20 80).2 0
      (by simp [two_stop_scenario_eval]),
   (claim10_kwh_and_cost_from_leg_start equator_dist 0 0 0 12
      [station_type2_mid, station_type2_far] 400 75 70 20 80).2 1
      (by simp [two_stop_scenario_eval])⟩

/-- C1 (counterexample): a planning call that requires charging (usable
range 240 km, trip 666 km) and whose first loop iteration finds no station
passing the candidate filters (the only station is 49.95 km away, below the
100 km floor) still returns `success = true` with the generic success
message — not the infeasibility report the claim requires. -/
theorem claim1_counterexample :
    400 * ((80 : ℚ) - 20) / 100 < equator_dist 0 0 0 6 ∧
    candidate_stations equator_dist 0 0 0 6 (400 * ((80 : ℚ) - 20) / 100)
      [station_type2_near] = [] ∧
    (calculate_charging_stops equator_dist 0 0 0 6 400 75 80 20 80
      [station_type2_near]).success = true ∧
    (calculate_charging_stops equator_dist 0 0 0 6 400 75 80 20 80
      [station_type2_near]).message =
      "Route calculated successfully with real-time traffic" ∧
    (calculate_charging_stops equator_dist 0 0 0 6 400 75 80 20 80
      [station_type2_near]).charging_stops = [] := by
  refine ⟨by norm_num [equator_dist], ?_, ?_, ?_, ?_⟩
  · norm_num [candidate_stations, List.filterMap_cons, station_candidate,
      equator_dist, station_type2_near]
  · simp [near_scenario_response_eval, create_route_response]
  · simp [near_scenario_response_eval, create_route_response]
  · simp [near_scenario_response_eval, create_route_response]

/-- C1 (amended): when charging is required, the response carries exactly
the stop list the loop produced — including the stops already placed when an
iteration finds no candidate and breaks — but the success flag is the
hardcoded `True` of `_create_route_response` and the message is the generic
success message: infeasibility is never reported to the caller. -/
theorem claim1_success_flag_hardcoded (d : Dist)
    (startLat startLon endLat endLon : ℚ) (stations : List Station)
    (vehicleRangeKm batteryCapacityKwh currentBatteryPercent minChargePercent
      preferredChargePercent : ℚ) (hne : stations ≠ [])
    (hfar : vehicleRangeKm * (currentBatteryPercent - minChargePercent) / 100 <
      d startLat startLon endLat endLon) :
    (calculate_charging_stops d startLat startLon endLat endLon vehicleRangeKm
        batteryCapacityKwh currentBatteryPercent minChargePercent
        preferredChargePercent stations).success = true ∧
    (calculate_charging_stops d startLat startLon endLat endLon vehicleRangeKm
        batteryCapacityKwh currentBatteryPercent minChargePercent
        preferredChargePercent stations).message =
      "Route calculated successfully with real-time traffic" ∧
    (calculate_charging_stops d startLat startLon endLat endLon vehicleRangeKm
        batteryCapacityKwh currentBatteryPercent minChargePercent
        preferredChargePercent stations).charging_stops =
      find_optimal_stops d startLat startLon endLat endLon stations vehicleRangeKm
        batteryCapacityKwh currentBatteryPercent minChargePercent
        preferredChargePercent := by
  have he : stations.isEmpty = false := by
    simpa [List.isEmpty_iff] using hne
  simp [calculate_charging_stops, he, not_le.mpr hfar, create_route_response]

/-- Witness for the amended C1 at the concrete infeasible scenario. -/
theorem claim1_witness :
    (calculate_charging_stops equator_dist 0 0 0 6 400 75 80 20 80
      [station_type2_near]).success = true ∧
    (calculate_charging_stops equator_dist 0 0 0 6 400 75 80 20 80
      [station_type2_near]).message =
      "Route calculated successfully with real-time traffic" ∧
    (calculate_charging_stops equator_dist 0 0 0 6 400 75 80 20 80
      [station_type2_near]).charging_stops =
      find_optimal_stops equator_dist 0 0 0 6 [station_type2_near] 400 75 80 20 80 :=
  claim1_success_flag_hardcoded equator_dist 0 0 0 6 [station_type2_near]
    400 75 80 20 80 (by simp) (by norm_num [equator_dist])

/-- C4 (counterexample): `_find_optimal_stops` applies no connector filter
— it does not even receive the vehicle's supported connectors — so for a
vehicle supporting only CCS1 it happily emits a stop whose connector type is
Type2: the stop's connector set does not intersect the vehicle's. -/
theorem claim4_counterexample :
    (find_optimal_stops equator_dist 0 0 0 6 [station_type2_mid]
        400 75 80 20 80).map StopInfo.connector_type = ["Type2"] ∧
    "Type2" ∉ (["CCS1"] : List String) := by
  constructor
  · norm_num [find_optimal_stops, find_stops_loop, find_stops_step,
      candidate_stations, List.filterMap_cons, station_candidate, python_max_by,
      stop_info, equator_dist, station_type2_mid]
  · simp

/-- C4 (amended): connector compatibility is enforced only on the
charging-service path: every station kept by `_filter_compatible_stations`
has a connector contained in the vehicle's supported-connector list (so the
stops of `RouteOptimizerAgent._plan_charging_stops`, which draws stations
exclusively from that filter via `find_best_charging_station`, are
compatible), while `_find_optimal_stops` performs no such filtering. -/
theorem claim4_connector_filter_sound (stations : List CSStation)
    (vehicleSpecs : VehicleSpecsDict) :
    ∀ st ∈ filter_compatible_stations stations vehicleSpecs,
      ∃ connector ∈ st.connector_types.getD [],
        connector ∈ vehicleSpecs.supported_connectors.getD [] := by
  intro st hst
  simp only [filter_compatible_stations, List.mem_filter] at hst
  obtain ⟨-, hany⟩ := hst
  simp only [List.any_eq_true] at hany
  obtain ⟨c, hc, hmem⟩ := hany
  exact ⟨c, hc, by simpa using hmem⟩

/-- Witness for the amended C4 on a concrete compatible station. -/
theorem claim4_witness :
    ∃ connector ∈ cs_station_ccs.connector_types.getD [],
      connector ∈ vehicle_ccs.supported_connectors.getD [] :=
  claim4_connector_filter_sound [cs_station_ccs] vehicle_ccs cs_station_ccs
    (by simp [filter_compatible_stations, cs_station_ccs, vehicle_ccs])

/-- C8 (counterexample): the first stop of the two-stop scenario has
charging time `kwh / station_power * 60` = 1.8 minutes; the claim's formula
would divide by a 0.85-derated power (2.12 minutes for any vehicle limit of
at least the station's 250 kW) and bound the power by the vehicle's maximum
(10.59 minutes at the 50 kW vehicle default used in `route_optimizer`).
Neither matches: `_find_optimal_stops` applies no vehicle bound and no
efficiency derate. -/
theorem claim8_counterexample :
    (find_optimal_stops equator_dist 0 0 0 12 [station_type2_mid, station_type2_far]
        400 75 70 20 80).map StopInfo.charging_time_minutes = [9/5, 0] ∧
    (find_optimal_stops equator_dist 0 0 0 12 [station_type2_mid, station_type2_far]
        400 75 70 20 80).map StopInfo.kwh_charged = [15/2, 0] ∧
    (find_optimal_stops equator_dist 0 0 0 12 [station_type2_mid, station_type2_far]
        400 75 70 20 80).map StopInfo.charging_power_kw = [250, 250] ∧
    (9/5 : ℚ) ≠ 15/2 / (250 * 0.85) * 60 ∧
    (9/5 : ℚ) ≠ 15/2 / (min (250 : ℚ) 50 * 0.85) * 60 := by
  refine ⟨by simp [two_stop_scenario_eval], by simp [two_stop_scenario_eval],
    by simp [two_stop_scenario_eval], by norm_num, by norm_num [min_def]⟩

/-- C8 (amended): the claimed formula — energy divided by the station power
bounded by the vehicle's maximum and derated by the fixed 0.85 average
charging efficiency, truncated to integer minutes — is exactly what
`RouteOptimizerAgent._calculate_charging_time` computes; the stops emitted
by `_find_optimal_stops`, however, use the raw station power with no vehicle
bound and no derate (`time = kwh / station_power * 60`).  In both planners
the stop's cost is its energy times the unit price. -/
theorem claim8_charging_time_formulas :
    (∀ (chargeNeeded : ℚ) (vehicleSpecs : VehicleSpecsDict) (stationPowerKw : ℚ),
      calculate_charging_time chargeNeeded vehicleSpecs stationPowerKw =
        python_int (chargeNeeded * vehicleSpecs.battery_capacity_kwh.getD 60 /
          (min stationPowerKw (vehicleSpecs.max_charging_power_kw.getD 50) * 0.85) *
          60)) ∧
    ∀ (d : Dist) (startLat startLon endLat endLon : ℚ) (stations : List Station)
      (vehicleRangeKm batteryCapacityKwh currentBatteryPercent minChargePercent
        preferredChargePercent : ℚ),
      ∀ s ∈ find_optimal_stops d startLat startLon endLat endLon stations
          vehicleRangeKm batteryCapacityKwh currentBatteryPercent minChargePercent
          preferredChargePercent,
        s.charging_time_minutes = s.kwh_charged / s.charging_power_kw * 60 ∧
        s.estimated_cost = s.kwh_charged * s.price_per_kwh := by
  constructor
  · intro chargeNeeded vehicleSpecs stationPowerKw
    rfl
  · intro d startLat startLon endLat endLon stations vehicleRangeKm
      batteryCapacityKwh currentBatteryPercent minChargePercent
      preferredChargePercent s hs
    obtain ⟨tail, heq, hcost, -⟩ := find_stops_loop_tail d endLat endLon stations
      vehicleRangeKm batteryCapacityKwh minChargePercent preferredChargePercent
      11 startLat startLon currentBatteryPercent 0 []
    have heq2 : find_optimal_stops d startLat startLon endLat endLon stations
        vehicleRangeKm batteryCapacityKwh currentBatteryPercent minChargePercent
        preferredChargePercent = tail := by
      simpa [find_optimal_stops] using heq
    rw [heq2] at hs
    exact ⟨(hcost s hs).2, (hcost s hs).1⟩

/-- Witness for the amended C8. -/
theorem claim8_witness :
    calculate_charging_time 0.5 vehicle_ccs 250 =
      python_int (0.5 * vehicle_ccs.battery_capacity_kwh.getD 60 /
        (min 250 (vehicle_ccs.max_charging_power_kw.getD 50) * 0.85) * 60) ∧
    ((find_optimal_stops equator_dist 0 0 0 12 [station_type2_mid, station_type2_far]
        400 75 70 20 80).get ⟨0, by simp [two_stop_scenario_eval]⟩).charging_time_minutes =
      ((find_optimal_stops equator_dist 0 0 0 12 [station_type2_mid, station_type2_far]
          400 75 70 20 80).get ⟨0, by simp [two_stop_scenario_eval]⟩).kwh_charged /
        ((find_optimal_stops equator_dist 0 0 0 12 [station_type2_mid, station_type2_far]
          400 75 70 20 80).get ⟨0, by simp [two_stop_scenario_eval]⟩).charging_power_kw *
        60 :=
  ⟨claim8_charging_time_formulas.1 0.5 vehicle_ccs 250,
   (claim8_charging_time_formulas.2 equator_dist 0 0 0 12
      [station_type2_mid, station_type2_far] 400 75 70 20 80 _
      (List.get_mem _ _ _)).1⟩

/-- C9 (counterexample): `_calculate_station_score` caps the score at 100
from above but never clamps it from below; a station record with rating -5
(and zero power, no available stalls, long wait, long distance) scores -20,
violating the claimed codomain [0, 100]. -/
theorem claim9_counterexample :
    calculate_station_score cs_station_bad_rating vehicle_ccs none < 0 := by
  norm_num [calculate_station_score, cs_station_bad_rating, vehicle_ccs,
    min_def]

/-- C9 (amended): the score is `min(100, sum of the sub-scores)`, hence at
most 100 for every input; it is nonnegative — and thus in [0, 100] — only
under the implicit data assumptions that the station's rating, power and
available-stall count and the vehicle's maximum charging power are
nonnegative and the total stall count is positive (Python raises
`ZeroDivisionError` when it is zero).  There is no lower clamp, so records
with a negative rating produce negative scores. -/
theorem claim9_score_bounds (station : CSStation) (vehicleSpecs : VehicleSpecsDict)
    (preferences : Option Preferences) :
    calculate_station_score station vehicleSpecs preferences ≤ 100 ∧
    (0 ≤ station.rating.getD 3 → 0 ≤ station.power_kw.getD 50 →
      0 ≤ vehicleSpecs.max_charging_power_kw.getD 150 →
      0 ≤ station.available_stalls.getD 1 → 0 < station.stalls.getD 1 →
      0 ≤ calculate_station_score station vehicleSpecs preferences) := by
  constructor
  · exact min_le_left _ _
  · intro h1 h2 h3 h4 h5
    have hs1 : (0 : ℚ) ≤ station.rating.getD 3 / 5 * 20 :=
      mul_nonneg (div_nonneg h1 (by norm_num)) (by norm_num)
    have hs2 : (0 : ℚ) ≤ min (station.power_kw.getD 50)
        (vehicleSpecs.max_charging_power_kw.getD 150) / 350 * 25 :=
      mul_nonneg (div_nonneg (le_min h2 h3) (by norm_num)) (by norm_num)
    have hs3 : (0 : ℚ) ≤ station.available_stalls.getD 1 / station.stalls.getD 1 * 20 :=
      mul_nonneg (div_nonneg h4 (le_of_lt h5)) (by norm_num)
    have hs4 : (0 : ℚ) ≤ max 0 (15 - station.wait_time_minutes.getD 0) :=
      le_max_left _ _
    have hs5 : (0 : ℚ) ≤ max 0 (20 - station.distance_km.getD 0 * 2) :=
      le_max_left _ _
    have hscore5 : (0 : ℚ) ≤ station.rating.getD 3 / 5 * 20 +
        min (station.power_kw.getD 50)
          (vehicleSpecs.max_charging_power_kw.getD 150) / 350 * 25 +
        station.available_stalls.getD 1 / station.stalls.getD 1 * 20 +
        max 0 (15 - station.wait_time_minutes.getD 0) +
        max 0 (20 - station.distance_km.getD 0 * 2) := by
      linarith
    unfold calculate_station_score
    cases preferences with
    | none => exact le_min (by norm_num) hscore5
    | some prefs =>
      refine le_min (by norm_num) ?_
      have hcnt : (0 : ℚ) ≤
          (((prefs.preferred_amenities.getD []).countP fun amenity =>
            (station.amenities.getD []).contains amenity : ℕ) : ℚ) := by
        positivity
      dsimp only
      split_ifs <;> linarith

/-- Witness for the amended C9 on a well-formed station record. -/
theorem claim9_witness :
    calculate_station_score cs_station_ccs vehicle_ccs none ≤ 100 ∧
    0 ≤ calculate_station_score cs_station_ccs vehicle_ccs none :=
  ⟨(claim9_score_bounds cs_station_ccs vehicle_ccs none).1,
   (claim9_score_bounds cs_station_ccs vehicle_ccs none).2
     (by norm_num [cs_station_ccs]) (by norm_num [cs_station_ccs])
     (by norm_num [vehicle_ccs]) (by norm_num [cs_station_ccs])
     (by norm_num [cs_station_ccs])⟩

end EvNav
